import Mathlib

set_option maxHeartbeats 1000000
set_option maxRecDepth 20000

namespace MarketWatch

/-! Shallow embedding of the signal-detection core of src/check_once.py:
the per-instrument fund confirmation/cooldown/daily-dedup machine
(fund_intraday_check), the ETF retracement/volume machine
(etf_intraday_check), the fetch guards of fetch_fund_estimate, the
trading-minutes model (minutes_since_open) and the allocation sizing.
Machine floats are modelled by exact rationals, Python dicts by total
functions with the dict's default value, and the per-day fired lists by a
boolean table over (date, tag) pairs (membership and append are the only
operations the source performs on them). -/

/-- Pointwise update of a string-keyed table, mirroring a Python dict write. -/
def upd {α : Type} (k : String) (v : α) (f : String → α) : String → α :=
  fun x => if x = k then v else f x

/-- Record a (date, tag) pair in the fired table, mirroring
fired_today.append(tag) where fired_today is state["fired"][date]. -/
def addFired (d t : String) (f : String → String → Bool) : String → String → Bool :=
  fun d' t' => if d' = d ∧ t' = t then true else f d' t'

/-- Whether the second character list is an initial segment of the first. -/
def segStarts : List Char → List Char → Bool
  | _, [] => true
  | [], _ :: _ => false
  | a :: as, b :: bs => (a == b) && segStarts as bs

/-- Whether needle occurs as a contiguous segment of the second list. -/
def segContains (needle : List Char) : List Char → Bool
  | [] => segStarts [] needle
  | c :: rest => segStarts (c :: rest) needle || segContains needle rest

/-- Python substring test, needle in hay, on the underlying characters. -/
def strContains (hay needle : String) : Bool :=
  segContains needle.data hay.data

/-- One parsed fund estimate, the dict returned by fetch_fund_estimate. -/
structure FundEst where
  name : String
  gsz : ℚ
  pct : ℚ
  freshMin : ℚ

/-- Per-fund watch configuration, one FUND_WATCH entry (pullback_band and
the per-instrument fresh_min limit in minutes). -/
structure FundCfg where
  band : ℚ × ℚ
  freshMin : ℚ

/-- One Sina quote as parsed by fetch_sina_quote (fields the ETF check reads). -/
structure Quote where
  name : String
  preclose : ℚ
  price : ℚ
  high : ℚ
  low : ℚ
  volume_hand : ℚ
  pct : ℚ

/-- The persisted engine state (.action_state.json): fund_pending counters,
fund_cooldown and etf_cooldown expiry timestamps (epoch seconds, default 0),
and the fired table indexed by date then tag. -/
structure EngineState where
  pendingCnt : String → ℕ
  fundCooldown : String → ℚ
  etfCooldown : String → ℚ
  fired : String → String → Bool

/-- in_pullback_band from check_once.py: low and high are the min and max of
the two band entries and the percentage must lie inside inclusively. -/
def in_pullback_band (pct : ℚ) (band : ℚ × ℚ) : Bool :=
  decide (min band.1 band.2 ≤ pct) && decide (pct ≤ max band.1 band.2)

/-- same_direction from check_once.py: vacuously true without a proxy or when
the fund moved less than 1e-6 in magnitude; otherwise signs must match or the
proxy's magnitude must be below 0.05. -/
def same_direction (fundPct : ℚ) (etfPct : Option ℚ) : Bool :=
  match etfPct with
  | none => true
  | some e =>
    if |fundPct| < 1 / 1000000 then true
    else (decide (0 < fundPct) && decide (0 < e)) ||
         (decide (fundPct < 0) && decide (e < 0)) ||
         decide (|e| < 5 / 100)

/-- The fund qualification test of line 340: trig_pb and ok_dir. -/
def fund_qualifies (cfg : FundCfg) (e : FundEst) (proxyPct : Option ℚ) : Bool :=
  in_pullback_band e.pct cfg.band && same_direction e.pct proxyPct

/-- The staleness test of line 316: the estimate's age in minutes is over the
global seconds ceiling FUND_EST_FRESH_SEC or over the per-fund fresh_min. -/
def staleRead (freshSec : ℚ) (cfg : FundCfg) (e : FundEst) : Bool :=
  decide (e.freshMin * 60 > freshSec) || decide (e.freshMin > cfg.freshMin)

/-- Identity and completeness guard of fetch_fund_estimate after JSON parsing:
a snapshot whose name misses the configured substring is discarded (None),
as is a snapshot missing its gsz or gszzl field. -/
def fetch_fund_estimate_core (expect : Option String) (name : String)
    (gsz pct : Option ℚ) (freshMin : ℚ) : Option FundEst :=
  if (match expect with
      | some s => !(strContains name s)
      | none => false) then none
  else
    match gsz, pct with
    | some g, some p => some { name := name, gsz := g, pct := p, freshMin := freshMin }
    | _, _ => none

/-- minutes_since_open from check_once.py, on the hour and minute of the
(Beijing) clock: two windows 09:30-11:30 and 13:00-15:00, 0 before open,
capped at 240 after close. -/
def minutes_since_open (hr mi : ℤ) : ℤ :=
  if hr < 9 ∨ (hr = 9 ∧ mi < 30) then 0
  else if hr < 11 ∨ (hr = 11 ∧ mi ≤ 30) then max 0 ((hr - 9) * 60 + (mi - 30))
  else if hr < 13 then 120
  else if 15 ≤ hr then 240
  else max 0 (120 + (hr - 13) * 60 + mi)

/-- mins of line 414: elapsed minutes floored at 1. -/
def elapsed_mins (hr mi : ℤ) : ℤ :=
  max 1 (minutes_since_open hr mi)

/-- avg_per_min of line 415: cumulative volume divided by elapsed minutes. -/
def avg_per_min (volume_hand : ℚ) (hr mi : ℤ) : ℚ :=
  if 0 < elapsed_mins hr mi then volume_hand / ((elapsed_mins hr mi : ℚ)) else 0

/-- vol_ok of lines 416-421: the code's approximate volume-breakout test,
total volume over (per-minute average times elapsed minutes) compared
against VOL_MULT. -/
def vol_breakout (volMult volume_hand : ℚ) (hr mi : ℤ) : Bool :=
  decide (0 < avg_per_min volume_hand hr mi) &&
  decide (volMult < volume_hand / (avg_per_min volume_hand hr mi * ((elapsed_mins hr mi : ℚ))))

/-- ref_high of lines 405-408: the REF_HIGH_xxx environment value when
positive, else the session high, else the price. -/
def etf_ref_high (refEnv : ℚ) (q : Quote) : ℚ :=
  if 0 < refEnv then refEnv else if 0 < q.high then q.high else q.price

/-- pullback of line 410: percent distance of price from the reference high. -/
def etf_pullback (refEnv : ℚ) (q : Quote) : ℚ :=
  (q.price / etf_ref_high refEnv q - 1) * 100

/-- in_zone of line 411: the pullback lies inside [DRAW_MIN, DRAW_MAX]. -/
def etf_in_zone (drawMin drawMax refEnv : ℚ) (q : Quote) : Bool :=
  decide (drawMin ≤ etf_pullback refEnv q) && decide (etf_pullback refEnv q ≤ drawMax)

/-- One fund instrument evaluation inside fund_intraday_check (the loop body,
lines 300-359): fetch/identity guard, staleness guard, cooldown gate,
confirmation counting, daily dedup, cooldown arming. Returns the updated
state and whether a Hit was emitted for this code. -/
def fundStepOne (rounds : ℕ) (cooldownMin freshSec : ℚ) (cfg : FundCfg) (code : String)
    (est : Option FundEst) (proxyPct : Option ℚ) (now : ℚ) (today : String)
    (st : EngineState) : EngineState × Bool :=
  match est with
  | none => (st, false)
  | some e =>
    if staleRead freshSec cfg e then (st, false)
    else if now < st.fundCooldown ("fund:" ++ code) then (st, false)
    else if fund_qualifies cfg e proxyPct then
      if rounds ≤ st.pendingCnt ("fund:" ++ code) + 1 then
        if st.fired today ("FUND:" ++ code ++ ":confirm") then
          ({ st with pendingCnt := upd ("fund:" ++ code) 0 st.pendingCnt }, false)
        else
          ({ st with
              pendingCnt := upd ("fund:" ++ code) 0 st.pendingCnt,
              fundCooldown := upd ("fund:" ++ code) (now + cooldownMin * 60) st.fundCooldown,
              fired := addFired today ("FUND:" ++ code ++ ":confirm") st.fired }, true)
      else
        ({ st with
            pendingCnt :=
              upd ("fund:" ++ code) (st.pendingCnt ("fund:" ++ code) + 1) st.pendingCnt },
         false)
    else
      ({ st with pendingCnt := upd ("fund:" ++ code) 0 st.pendingCnt }, false)

/-- One ETF evaluation inside etf_intraday_check (the loop body, lines
398-451): quote guard, retracement zone or volume breakout, cooldown gate,
daily dedup, cooldown arming. Returns the updated state and the suggested
buy amount of line 432 when a Hit fired. -/
def etfStepOne (drawMin drawMax volMult etfCooldownMin slice totalAssets refEnv : ℚ)
    (code : String) (q : Option Quote) (hr mi : ℤ) (now : ℚ) (today : String)
    (st : EngineState) : EngineState × Option ℚ :=
  match q with
  | none => (st, none)
  | some qq =>
    if qq.price ≤ 0 ∨ qq.preclose ≤ 0 then (st, none)
    else if now < st.etfCooldown ("etf:" ++ code) then (st, none)
    else if etf_in_zone drawMin drawMax refEnv qq || vol_breakout volMult qq.volume_hand hr mi then
      if st.fired today ("ETF:" ++ code ++ ":wave") then (st, none)
      else
        ({ st with
            etfCooldown := upd ("etf:" ++ code) (now + etfCooldownMin * 60) st.etfCooldown,
            fired := addFired today ("ETF:" ++ code ++ ":wave") st.fired },
         some (totalAssets * (10 / 100) * slice))
    else (st, none)

/-- The global configuration knobs the two checks read from the environment. -/
structure GCfg where
  rounds : ℕ
  fundCooldownMin : ℚ
  freshSec : ℚ
  drawMin : ℚ
  drawMax : ℚ
  volMult : ℚ
  etfCooldownMin : ℚ
  slice : ℚ
  totalAssets : ℚ

/-- One instrument evaluation event inside some pass: either a fund
evaluation or an ETF evaluation, with the inputs the pass feeds it (today is
the pass date keying the fired table, now the clock for the cooldown gates). -/
inductive Ev where
  | fund (cfg : FundCfg) (code : String) (est : Option FundEst)
      (proxyPct : Option ℚ) (now : ℚ) (today : String)
  | etf (refEnv : ℚ) (code : String) (q : Option Quote)
      (hr mi : ℤ) (now : ℚ) (today : String)

/-- Run one event against the persisted state; the emitted Hit is reported
as its (date, tag) dedup pair, exactly the pair the source appends to
state["fired"]. -/
def runEvent (g : GCfg) (ev : Ev) (st : EngineState) : EngineState × Option (String × String) :=
  match ev with
  | .fund cfg code est proxyPct now today =>
    ((fundStepOne g.rounds g.fundCooldownMin g.freshSec cfg code est proxyPct now today st).1,
     if (fundStepOne g.rounds g.fundCooldownMin g.freshSec cfg code est proxyPct now today st).2 then
       some (today, "FUND:" ++ code ++ ":confirm")
     else none)
  | .etf refEnv code q hr mi now today =>
    ((etfStepOne g.drawMin g.drawMax g.volMult g.etfCooldownMin g.slice g.totalAssets
        refEnv code q hr mi now today st).1,
     match (etfStepOne g.drawMin g.drawMax g.volMult g.etfCooldownMin g.slice g.totalAssets
        refEnv code q hr mi now today st).2 with
     | some _ => some (today, "ETF:" ++ code ++ ":wave")
     | none => none)

/-- Run a sequence of events (any interleaving of passes, instruments and
dates) against the persisted state, collecting the emitted (date, tag)
pairs in order. -/
def runTrace (g : GCfg) : List Ev → EngineState → EngineState × List (String × String)
  | [], st => (st, [])
  | ev :: rest, st =>
    ((runTrace g rest (runEvent g ev st).1).1,
     (runEvent g ev st).2.toList ++ (runTrace g rest (runEvent g ev st).1).2)

/-- The per-pass inputs one fund instrument sees: its estimate (or a fetch
failure), the averaged proxy percent change, the clock and the pass date. -/
structure FundIn where
  est : Option FundEst
  proxyPct : Option ℚ
  now : ℚ
  today : String

/-- Run a sequence of fund evaluations of one instrument, counting Hits. -/
def runFund (rounds : ℕ) (cooldownMin freshSec : ℚ) (cfg : FundCfg) (code : String) :
    List FundIn → EngineState → EngineState × ℕ
  | [], st => (st, 0)
  | i :: rest, st =>
    ((runFund rounds cooldownMin freshSec cfg code rest
        (fundStepOne rounds cooldownMin freshSec cfg code i.est i.proxyPct i.now i.today st).1).1,
     (if (fundStepOne rounds cooldownMin freshSec cfg code i.est i.proxyPct i.now i.today st).2
      then 1 else 0) +
     (runFund rounds cooldownMin freshSec cfg code rest
        (fundStepOne rounds cooldownMin freshSec cfg code i.est i.proxyPct i.now i.today st).1).2)

/-- An input whose estimate passed the fetch and freshness guards, so the
state machine actually evaluates it. -/
def evalRead (freshSec : ℚ) (cfg : FundCfg) (i : FundIn) : Bool :=
  match i.est with
  | none => false
  | some e => !(staleRead freshSec cfg e)

/-- An evaluated read that qualifies: band and direction both hold. -/
def evalQual (freshSec : ℚ) (cfg : FundCfg) (i : FundIn) : Bool :=
  evalRead freshSec cfg i &&
    (match i.est with
     | none => false
     | some e => fund_qualifies cfg e i.proxyPct)

/-- An evaluated read that does not qualify; this is the kind of read that
resets the confirmation counter. -/
def evalNonQual (freshSec : ℚ) (cfg : FundCfg) (i : FundIn) : Bool :=
  evalRead freshSec cfg i &&
    (match i.est with
     | none => true
     | some e => !(fund_qualifies cfg e i.proxyPct))

/-- The hardcoded attack fraction of lines 363 and 432: 10 percent. -/
def attackFraction : ℚ := 10 / 100

/-- attack_money of line 363. -/
def fund_attack_money (totalAssets : ℚ) : ℚ := totalAssets * (10 / 100)

/-- per_buy of line 364: the fund attack budget split equally over the
batch of simultaneous fund Hits (floored at one hit). -/
def fund_per_buy (totalAssets : ℚ) (hitCount : ℕ) : ℚ :=
  fund_attack_money totalAssets / max 1 (hitCount : ℚ)

/-- buy_amt of line 432: each ETF Hit's independent slice. -/
def etf_buy_amt (totalAssets slice : ℚ) : ℚ := totalAssets * (10 / 100) * slice

/-- Modelled from the spec: the intended expected-volume breakout ratio of
section 4.3, cumulativeVolume over avgDailyVolume times the elapsed share of
the session; avgDailyVolume has no counterpart anywhere in src/check_once.py. -/
def spec_volume_ratio (avgDailyVolume cumulativeVolume elapsedMinutes totalSessionMinutes : ℚ) : ℚ :=
  cumulativeVolume / (avgDailyVolume * (elapsedMinutes / totalSessionMinutes))

/-- The empty persisted state: all counters 0, all cooldowns at epoch,
nothing fired. -/
def initState : EngineState :=
  { pendingCnt := fun _ => 0
    fundCooldown := fun _ => 0
    etfCooldown := fun _ => 0
    fired := fun _ _ => false }

theorem upd_same {α : Type} (k : String) (v : α) (f : String → α) : upd k v f k = v := by
  simp [upd]

theorem addFired_self (d t : String) (f : String → String → Bool) :
    addFired d t f d t = true := by
  simp [addFired]

theorem addFired_mono {f : String → String → Bool} {d' t' : String} (d t : String)
    (h : f d' t' = true) : addFired d t f d' t' = true := by
  unfold addFired
  split
  · rfl
  · exact h

theorem fundStepOne_fired_mono (rounds : ℕ) (cooldownMin freshSec : ℚ) (cfg : FundCfg)
    (code : String) (est : Option FundEst) (proxyPct : Option ℚ) (now : ℚ) (today : String)
    (st : EngineState) (d t : String) (h : st.fired d t = true) :
    ((fundStepOne rounds cooldownMin freshSec cfg code est proxyPct now today st).1).fired d t = true := by
  unfold fundStepOne
  cases est with
  | none => exact h
  | some e =>
    dsimp only
    split
    · exact h
    · split
      · exact h
      · split
        · split
          · split
            · exact h
            · exact addFired_mono today ("FUND:" ++ code ++ ":confirm") h
          · exact h
        · exact h

theorem etfStepOne_fired_mono (drawMin drawMax volMult etfCooldownMin slice totalAssets refEnv : ℚ)
    (code : String) (q : Option Quote) (hr mi : ℤ) (now : ℚ) (today : String)
    (st : EngineState) (d t : String) (h : st.fired d t = true) :
    ((etfStepOne drawMin drawMax volMult etfCooldownMin slice totalAssets refEnv code q hr mi now today st).1).fired d t = true := by
  unfold etfStepOne
  cases q with
  | none => exact h
  | some qq =>
    dsimp only
    split
    · exact h
    · split
      · exact h
      · split
        · split
          · exact h
          · exact addFired_mono today ("ETF:" ++ code ++ ":wave") h
        · exact h

theorem fundStepOne_emit (rounds : ℕ) (cooldownMin freshSec : ℚ) (cfg : FundCfg)
    (code : String) (est : Option FundEst) (proxyPct : Option ℚ) (now : ℚ) (today : String)
    (st : EngineState)
    (h : (fundStepOne rounds cooldownMin freshSec cfg code est proxyPct now today st).2 = true) :
    st.fired today ("FUND:" ++ code ++ ":confirm") = false ∧
    ((fundStepOne rounds cooldownMin freshSec cfg code est proxyPct now today st).1).fired
      today ("FUND:" ++ code ++ ":confirm") = true := by
  unfold fundStepOne at h
  cases est with
  | none => simp at h
  | some e =>
    dsimp only at h
    split at h
    · simp at h
    · split at h
      · simp at h
      · split at h
        · split at h
          · split at h
            · simp at h
            · rename_i hstale hcool hqual hcnt hfired
              have hstep : fundStepOne rounds cooldownMin freshSec cfg code (some e) proxyPct now today st =
                  ({ st with
                      pendingCnt := upd ("fund:" ++ code) 0 st.pendingCnt,
                      fundCooldown := upd ("fund:" ++ code) (now + cooldownMin * 60) st.fundCooldown,
                      fired := addFired today ("FUND:" ++ code ++ ":confirm") st.fired }, true) := by
                unfold fundStepOne
                dsimp only
                rw [if_neg hstale, if_neg hcool, if_pos hqual, if_pos hcnt, if_neg hfired]
              refine ⟨by simpa using hfired, ?_⟩
              rw [hstep]
              exact addFired_self _ _ _
          · simp at h
        · simp at h

theorem etfStepOne_emit (drawMin drawMax volMult etfCooldownMin slice totalAssets refEnv : ℚ)
    (code : String) (q : Option Quote) (hr mi : ℤ) (now : ℚ) (today : String)
    (st : EngineState) (a : ℚ)
    (h : (etfStepOne drawMin drawMax volMult etfCooldownMin slice totalAssets refEnv code q hr mi now today st).2 = some a) :
    st.fired today ("ETF:" ++ code ++ ":wave") = false ∧
    ((etfStepOne drawMin drawMax volMult etfCooldownMin slice totalAssets refEnv code q hr mi now today st).1).fired
      today ("ETF:" ++ code ++ ":wave") = true := by
  unfold etfStepOne at h
  cases q with
  | none => simp at h
  | some qq =>
    dsimp only at h
    split at h
    · simp at h
    · split at h
      · simp at h
      · split at h
        · split at h
          · simp at h
          · rename_i hguard hcool hzone hfired
            have hstep : etfStepOne drawMin drawMax volMult etfCooldownMin slice totalAssets refEnv code (some qq) hr mi now today st =
                ({ st with
                    etfCooldown := upd ("etf:" ++ code) (now + etfCooldownMin * 60) st.etfCooldown,
                    fired := addFired today ("ETF:" ++ code ++ ":wave") st.fired },
                 some (totalAssets * (10 / 100) * slice)) := by
              unfold etfStepOne
              dsimp only
              rw [if_neg hguard, if_neg hcool, if_pos hzone, if_neg hfired]
            refine ⟨by simpa using hfired, ?_⟩
            rw [hstep]
            exact addFired_self _ _ _
        · simp at h

theorem runEvent_fired_mono (g : GCfg) (ev : Ev) (st : EngineState) (d t : String)
    (h : st.fired d t = true) : ((runEvent g ev st).1).fired d t = true := by
  cases ev with
  | fund cfg code est proxyPct now today =>
    exact fundStepOne_fired_mono g.rounds g.fundCooldownMin g.freshSec cfg code est proxyPct now today st d t h
  | etf refEnv code q hr mi now today =>
    exact etfStepOne_fired_mono g.drawMin g.drawMax g.volMult g.etfCooldownMin g.slice g.totalAssets refEnv code q hr mi now today st d t h

theorem runEvent_emit (g : GCfg) (ev : Ev) (st : EngineState) (d t : String)
    (h : (runEvent g ev st).2 = some (d, t)) :
    st.fired d t = false ∧ ((runEvent g ev st).1).fired d t = true := by
  cases ev with
  | fund cfg code est proxyPct now today =>
    dsimp only [runEvent] at h ⊢
    split at h
    · rename_i hemit
      obtain ⟨hd, ht⟩ : today = d ∧ "FUND:" ++ code ++ ":confirm" = t := by
        simpa using h
      subst hd
      subst ht
      exact fundStepOne_emit _ _ _ _ _ _ _ _ _ _ hemit
    · simp at h
  | etf refEnv code q hr mi now today =>
    dsimp only [runEvent] at h ⊢
    split at h
    · rename_i a heq
      obtain ⟨hd, ht⟩ : today = d ∧ "ETF:" ++ code ++ ":wave" = t := by
        simpa using h
      subst hd
      subst ht
      exact etfStepOne_emit _ _ _ _ _ _ _ _ _ _ _ _ _ _ _ heq
    · simp at h

theorem runTrace_count_zero (g : GCfg) (l : List Ev) (st : EngineState) (d t : String)
    (h : st.fired d t = true) :
    ((runTrace g l st).2).count (d, t) = 0 := by
  induction l generalizing st with
  | nil => simp [runTrace]
  | cons ev rest ih =>
    dsimp only [runTrace]
    rw [List.count_append]
    have h1 := runEvent_fired_mono g ev st d t h
    have h2 : ((runEvent g ev st).2.toList).count (d, t) = 0 := by
      cases he : (runEvent g ev st).2 with
      | none => simp
      | some p =>
        by_cases hp : p = (d, t)
        · subst hp
          exact absurd ((runEvent_emit g ev st d t he).1) (by simp [h])
        · simp [List.count_singleton, hp]
    rw [h2, ih (runEvent g ev st).1 h1]

/-- Claim C1: across any sequence of passes (any interleaving of fund and ETF
evaluations, on any dates), at most one Hit is emitted per (instrument, date)
pair: the dedup tag of an emission must be absent from the per-day fired set
beforehand and is recorded by the emission, every branch of both state
machines preserves recorded tags, and further evaluations on that date are
therefore suppressed no matter how often the cooldown expires. -/
theorem at_most_one_hit_per_instrument_date (g : GCfg) (l : List Ev) (st : EngineState)
    (d t : String) : ((runTrace g l st).2).count (d, t) ≤ 1 := by
  induction l generalizing st with
  | nil => simp [runTrace]
  | cons ev rest ih =>
    dsimp only [runTrace]
    rw [List.count_append]
    cases he : (runEvent g ev st).2 with
    | none => simpa using ih (runEvent g ev st).1
    | some p =>
      by_cases hp : p = (d, t)
      · subst hp
        have hem := runEvent_emit g ev st d t he
        have h0 := runTrace_count_zero g rest (runEvent g ev st).1 d t hem.2
        simp [h0]
      · have h0 : List.count (d, t) (some p).toList = 0 := by
          refine List.count_eq_zero.mpr ?_
          simp [eq_comm, hp]
        rw [h0]
        simpa using ih (runEvent g ev st).1

theorem fundStepOne_none (rounds : ℕ) (cooldownMin freshSec : ℚ) (cfg : FundCfg)
    (code : String) (proxyPct : Option ℚ) (now : ℚ) (today : String) (st : EngineState) :
    fundStepOne rounds cooldownMin freshSec cfg code none proxyPct now today st = (st, false) := rfl

theorem fundStepOne_stale (rounds : ℕ) (cooldownMin freshSec : ℚ) (cfg : FundCfg)
    (code : String) (e : FundEst) (proxyPct : Option ℚ) (now : ℚ) (today : String)
    (st : EngineState) (hs : staleRead freshSec cfg e = true) :
    fundStepOne rounds cooldownMin freshSec cfg code (some e) proxyPct now today st = (st, false) := by
  unfold fundStepOne
  dsimp only
  rw [if_pos hs]

theorem fundStepOne_cool (rounds : ℕ) (cooldownMin freshSec : ℚ) (cfg : FundCfg)
    (code : String) (e : FundEst) (proxyPct : Option ℚ) (now : ℚ) (today : String)
    (st : EngineState) (hs : staleRead freshSec cfg e = false)
    (hcd : now < st.fundCooldown ("fund:" ++ code)) :
    fundStepOne rounds cooldownMin freshSec cfg code (some e) proxyPct now today st = (st, false) := by
  unfold fundStepOne
  dsimp only
  rw [if_neg (by simp [hs]), if_pos hcd]

theorem fundStepOne_nonqual (rounds : ℕ) (cooldownMin freshSec : ℚ) (cfg : FundCfg)
    (code : String) (e : FundEst) (proxyPct : Option ℚ) (now : ℚ) (today : String)
    (st : EngineState) (hs : staleRead freshSec cfg e = false)
    (hcd : ¬ now < st.fundCooldown ("fund:" ++ code))
    (hq : fund_qualifies cfg e proxyPct = false) :
    fundStepOne rounds cooldownMin freshSec cfg code (some e) proxyPct now today st =
      ({ st with pendingCnt := upd ("fund:" ++ code) 0 st.pendingCnt }, false) := by
  unfold fundStepOne
  dsimp only
  rw [if_neg (by simp [hs]), if_neg hcd, if_neg (by simp [hq])]

theorem fundStepOne_inc (rounds : ℕ) (cooldownMin freshSec : ℚ) (cfg : FundCfg)
    (code : String) (e : FundEst) (proxyPct : Option ℚ) (now : ℚ) (today : String)
    (st : EngineState) (hs : staleRead freshSec cfg e = false)
    (hcd : ¬ now < st.fundCooldown ("fund:" ++ code))
    (hq : fund_qualifies cfg e proxyPct = true)
    (hcnt : ¬ rounds ≤ st.pendingCnt ("fund:" ++ code) + 1) :
    fundStepOne rounds cooldownMin freshSec cfg code (some e) proxyPct now today st =
      ({ st with
          pendingCnt :=
            upd ("fund:" ++ code) (st.pendingCnt ("fund:" ++ code) + 1) st.pendingCnt },
       false) := by
  unfold fundStepOne
  dsimp only
  rw [if_neg (by simp [hs]), if_neg hcd, if_pos hq, if_neg hcnt]

theorem fundStepOne_suppress (rounds : ℕ) (cooldownMin freshSec : ℚ) (cfg : FundCfg)
    (code : String) (e : FundEst) (proxyPct : Option ℚ) (now : ℚ) (today : String)
    (st : EngineState) (hs : staleRead freshSec cfg e = false)
    (hcd : ¬ now < st.fundCooldown ("fund:" ++ code))
    (hq : fund_qualifies cfg e proxyPct = true)
    (hcnt : rounds ≤ st.pendingCnt ("fund:" ++ code) + 1)
    (hfired : st.fired today ("FUND:" ++ code ++ ":confirm") = true) :
    fundStepOne rounds cooldownMin freshSec cfg code (some e) proxyPct now today st =
      ({ st with pendingCnt := upd ("fund:" ++ code) 0 st.pendingCnt }, false) := by
  unfold fundStepOne
  dsimp only
  rw [if_neg (by simp [hs]), if_neg hcd, if_pos hq, if_pos hcnt, if_pos hfired]

theorem fundStepOne_fire (rounds : ℕ) (cooldownMin freshSec : ℚ) (cfg : FundCfg)
    (code : String) (e : FundEst) (proxyPct : Option ℚ) (now : ℚ) (today : String)
    (st : EngineState) (hs : staleRead freshSec cfg e = false)
    (hcd : ¬ now < st.fundCooldown ("fund:" ++ code))
    (hq : fund_qualifies cfg e proxyPct = true)
    (hcnt : rounds ≤ st.pendingCnt ("fund:" ++ code) + 1)
    (hfired : st.fired today ("FUND:" ++ code ++ ":confirm") = false) :
    fundStepOne rounds cooldownMin freshSec cfg code (some e) proxyPct now today st =
      ({ st with
          pendingCnt := upd ("fund:" ++ code) 0 st.pendingCnt,
          fundCooldown := upd ("fund:" ++ code) (now + cooldownMin * 60) st.fundCooldown,
          fired := addFired today ("FUND:" ++ code ++ ":confirm") st.fired }, true) := by
  unfold fundStepOne
  dsimp only
  rw [if_neg (by simp [hs]), if_neg hcd, if_pos hq, if_pos hcnt, if_neg (by simp [hfired])]

theorem etfStepOne_noquote (drawMin drawMax volMult etfCooldownMin slice totalAssets refEnv : ℚ)
    (code : String) (hr mi : ℤ) (now : ℚ) (today : String) (st : EngineState) :
    etfStepOne drawMin drawMax volMult etfCooldownMin slice totalAssets refEnv code none hr mi now today st = (st, none) := rfl

theorem etfStepOne_badquote (drawMin drawMax volMult etfCooldownMin slice totalAssets refEnv : ℚ)
    (code : String) (qq : Quote) (hr mi : ℤ) (now : ℚ) (today : String) (st : EngineState)
    (h : qq.price ≤ 0 ∨ qq.preclose ≤ 0) :
    etfStepOne drawMin drawMax volMult etfCooldownMin slice totalAssets refEnv code (some qq) hr mi now today st = (st, none) := by
  unfold etfStepOne
  dsimp only
  rw [if_pos h]

theorem etfStepOne_cool (drawMin drawMax volMult etfCooldownMin slice totalAssets refEnv : ℚ)
    (code : String) (qq : Quote) (hr mi : ℤ) (now : ℚ) (today : String) (st : EngineState)
    (hg : ¬ (qq.price ≤ 0 ∨ qq.preclose ≤ 0))
    (hcd : now < st.etfCooldown ("etf:" ++ code)) :
    etfStepOne drawMin drawMax volMult etfCooldownMin slice totalAssets refEnv code (some qq) hr mi now today st = (st, none) := by
  unfold etfStepOne
  dsimp only
  rw [if_neg hg, if_pos hcd]

theorem etfStepOne_nohit (drawMin drawMax volMult etfCooldownMin slice totalAssets refEnv : ℚ)
    (code : String) (qq : Quote) (hr mi : ℤ) (now : ℚ) (today : String) (st : EngineState)
    (hg : ¬ (qq.price ≤ 0 ∨ qq.preclose ≤ 0))
    (hcd : ¬ now < st.etfCooldown ("etf:" ++ code))
    (hz : (etf_in_zone drawMin drawMax refEnv qq || vol_breakout volMult qq.volume_hand hr mi) = false) :
    etfStepOne drawMin drawMax volMult etfCooldownMin slice totalAssets refEnv code (some qq) hr mi now today st = (st, none) := by
  unfold etfStepOne
  dsimp only
  rw [if_neg hg, if_neg hcd, if_neg (by simp [hz])]

theorem etfStepOne_suppress (drawMin drawMax volMult etfCooldownMin slice totalAssets refEnv : ℚ)
    (code : String) (qq : Quote) (hr mi : ℤ) (now : ℚ) (today : String) (st : EngineState)
    (hg : ¬ (qq.price ≤ 0 ∨ qq.preclose ≤ 0))
    (hcd : ¬ now < st.etfCooldown ("etf:" ++ code))
    (hz : (etf_in_zone drawMin drawMax refEnv qq || vol_breakout volMult qq.volume_hand hr mi) = true)
    (hfired : st.fired today ("ETF:" ++ code ++ ":wave") = true) :
    etfStepOne drawMin drawMax volMult etfCooldownMin slice totalAssets refEnv code (some qq) hr mi now today st = (st, none) := by
  unfold etfStepOne
  dsimp only
  rw [if_neg hg, if_neg hcd, if_pos hz, if_pos hfired]

theorem etfStepOne_fire (drawMin drawMax volMult etfCooldownMin slice totalAssets refEnv : ℚ)
    (code : String) (qq : Quote) (hr mi : ℤ) (now : ℚ) (today : String) (st : EngineState)
    (hg : ¬ (qq.price ≤ 0 ∨ qq.preclose ≤ 0))
    (hcd : ¬ now < st.etfCooldown ("etf:" ++ code))
    (hz : (etf_in_zone drawMin drawMax refEnv qq || vol_breakout volMult qq.volume_hand hr mi) = true)
    (hfired : st.fired today ("ETF:" ++ code ++ ":wave") = false) :
    etfStepOne drawMin drawMax volMult etfCooldownMin slice totalAssets refEnv code (some qq) hr mi now today st =
      ({ st with
          etfCooldown := upd ("etf:" ++ code) (now + etfCooldownMin * 60) st.etfCooldown,
          fired := addFired today ("ETF:" ++ code ++ ":wave") st.fired },
       some (totalAssets * (10 / 100) * slice)) := by
  unfold etfStepOne
  dsimp only
  rw [if_neg hg, if_neg hcd, if_pos hz, if_neg (by simp [hfired])]

theorem fundStepOne_cnt_lt (rounds : ℕ) (cooldownMin freshSec : ℚ) (cfg : FundCfg)
    (code : String) (est : Option FundEst) (proxyPct : Option ℚ) (now : ℚ) (today : String)
    (st : EngineState) (hr1 : 1 ≤ rounds)
    (h : st.pendingCnt ("fund:" ++ code) < rounds) :
    ((fundStepOne rounds cooldownMin freshSec cfg code est proxyPct now today st).1).pendingCnt
      ("fund:" ++ code) < rounds := by
  unfold fundStepOne
  cases est with
  | none => exact h
  | some e =>
    dsimp only
    split
    · exact h
    · split
      · exact h
      · split
        · split
          · split
            · simpa [upd_same] using hr1
            · simpa [upd_same] using hr1
          · rename_i hcnt
            simpa [upd_same] using lt_of_not_le hcnt
        · simpa [upd_same] using hr1

theorem runFund_cnt_lt (rounds : ℕ) (cooldownMin freshSec : ℚ) (cfg : FundCfg)
    (code : String) (l : List FundIn) (st : EngineState) (hr1 : 1 ≤ rounds)
    (h : st.pendingCnt ("fund:" ++ code) < rounds) :
    ((runFund rounds cooldownMin freshSec cfg code l st).1).pendingCnt ("fund:" ++ code) < rounds := by
  induction l generalizing st with
  | nil => exact h
  | cons i rest ih =>
    dsimp only [runFund]
    exact ih _ (fundStepOne_cnt_lt rounds cooldownMin freshSec cfg code i.est i.proxyPct i.now i.today st hr1 h)

theorem fundStepOne_single_no_emit (rounds : ℕ) (cooldownMin freshSec : ℚ) (cfg : FundCfg)
    (code : String) (est : Option FundEst) (proxyPct : Option ℚ) (now : ℚ) (today : String)
    (st : EngineState) (hr2 : 2 ≤ rounds)
    (h0 : st.pendingCnt ("fund:" ++ code) = 0) :
    (fundStepOne rounds cooldownMin freshSec cfg code est proxyPct now today st).2 = false := by
  unfold fundStepOne
  cases est with
  | none => rfl
  | some e =>
    dsimp only
    split
    · rfl
    · split
      · rfl
      · split
        · split
          · rename_i hcnt
            rw [h0] at hcnt
            exact absurd hcnt (by omega)
          · rfl
        · rfl

theorem runFund_no_emit (rounds : ℕ) (cooldownMin freshSec : ℚ) (cfg : FundCfg)
    (code : String) (l : List FundIn) (st : EngineState)
    (hnq : ∀ i ∈ l, evalNonQual freshSec cfg i = false)
    (hlt : st.pendingCnt ("fund:" ++ code) +
      (l.filter (fun i => evalQual freshSec cfg i)).length < rounds) :
    (runFund rounds cooldownMin freshSec cfg code l st).2 = 0 := by
  induction l generalizing st with
  | nil => rfl
  | cons i rest ih =>
    have hnqr : ∀ j ∈ rest, evalNonQual freshSec cfg j = false :=
      fun j hj => hnq j (List.mem_cons_of_mem i hj)
    dsimp only [runFund]
    cases hest : i.est with
    | none =>
      have hstep := fundStepOne_none rounds cooldownMin freshSec cfg code i.proxyPct i.now i.today st
      rw [hstep]
      have hq0 : evalQual freshSec cfg i = false := by
        simp [evalQual, evalRead, hest]
      have hflt : (List.filter (fun j => evalQual freshSec cfg j) (i :: rest)).length =
          (List.filter (fun j => evalQual freshSec cfg j) rest).length := by
        simp [List.filter_cons, hq0]
      rw [hflt] at hlt
      simpa using ih st hnqr hlt
    | some e =>
      by_cases hs : staleRead freshSec cfg e = true
      · have hstep := fundStepOne_stale rounds cooldownMin freshSec cfg code e i.proxyPct i.now i.today st hs
        rw [hstep]
        have hq0 : evalQual freshSec cfg i = false := by
          simp [evalQual, evalRead, hest, hs]
        have hflt : (List.filter (fun j => evalQual freshSec cfg j) (i :: rest)).length =
            (List.filter (fun j => evalQual freshSec cfg j) rest).length := by
          simp [List.filter_cons, hq0]
        rw [hflt] at hlt
        simpa using ih st hnqr hlt
      · have hs' : staleRead freshSec cfg e = false := by
          simpa using hs
        by_cases hcd : i.now < st.fundCooldown ("fund:" ++ code)
        · have hstep := fundStepOne_cool rounds cooldownMin freshSec cfg code e i.proxyPct i.now i.today st hs' hcd
          rw [hstep]
          have hle : (List.filter (fun j => evalQual freshSec cfg j) rest).length ≤
              (List.filter (fun j => evalQual freshSec cfg j) (i :: rest)).length := by
            by_cases hq : evalQual freshSec cfg i = true <;> simp [List.filter_cons, hq]
          have hlt' : st.pendingCnt ("fund:" ++ code) +
              (rest.filter (fun j => evalQual freshSec cfg j)).length < rounds := by omega
          simpa using ih st hnqr hlt'
        · by_cases hq : fund_qualifies cfg e i.proxyPct = true
          · have hqi : evalQual freshSec cfg i = true := by
              simp [evalQual, evalRead, hest, hs', hq]
            have hflt : (List.filter (fun j => evalQual freshSec cfg j) (i :: rest)).length =
                (List.filter (fun j => evalQual freshSec cfg j) rest).length + 1 := by
              simp [List.filter_cons, hqi]
            rw [hflt] at hlt
            have hcnt : ¬ rounds ≤ st.pendingCnt ("fund:" ++ code) + 1 := by omega
            have hstep := fundStepOne_inc rounds cooldownMin freshSec cfg code e i.proxyPct i.now i.today st hs' hcd hq hcnt
            rw [hstep]
            have hlt' : (({ st with
                pendingCnt := upd ("fund:" ++ code) (st.pendingCnt ("fund:" ++ code) + 1) st.pendingCnt } :
                EngineState)).pendingCnt ("fund:" ++ code) +
                (rest.filter (fun j => evalQual freshSec cfg j)).length < rounds := by
              simpa [upd_same] using by omega
            simpa using ih _ hnqr hlt'
          · have := hnq i (List.mem_cons_self i rest)
            rw [evalNonQual, evalRead, hest] at this
            simp [hs', hq] at this

/-- Claim C5: starting from confirmCount 0, a fund instrument (a) never emits
on a single evaluation when the confirmation threshold is at least 2, (b) keeps
its persisted counter at or below the threshold across every trace because the
counter resets on emission and on every non-qualifying read, and (c) emits no
Hit on any trace that contains no non-qualifying evaluated read and fewer than
threshold qualifying evaluated reads. -/
theorem fund_confirmation_threshold_behavior :
    (∀ (rounds : ℕ) (cooldownMin freshSec : ℚ) (cfg : FundCfg) (code : String)
       (est : Option FundEst) (proxyPct : Option ℚ) (now : ℚ) (today : String)
       (st : EngineState), 2 ≤ rounds → st.pendingCnt ("fund:" ++ code) = 0 →
       (fundStepOne rounds cooldownMin freshSec cfg code est proxyPct now today st).2 = false) ∧
    (∀ (rounds : ℕ) (cooldownMin freshSec : ℚ) (cfg : FundCfg) (code : String)
       (l : List FundIn) (st : EngineState), 1 ≤ rounds →
       st.pendingCnt ("fund:" ++ code) = 0 →
       ((runFund rounds cooldownMin freshSec cfg code l st).1).pendingCnt ("fund:" ++ code) ≤ rounds) ∧
    (∀ (rounds : ℕ) (cooldownMin freshSec : ℚ) (cfg : FundCfg) (code : String)
       (l : List FundIn) (st : EngineState),
       (∀ i ∈ l, evalNonQual freshSec cfg i = false) →
       st.pendingCnt ("fund:" ++ code) = 0 →
       (l.filter (fun i => evalQual freshSec cfg i)).length < rounds →
       (runFund rounds cooldownMin freshSec cfg code l st).2 = 0) := by
  refine ⟨?_, ?_, ?_⟩
  · intro rounds cooldownMin freshSec cfg code est proxyPct now today st hr2 h0
    exact fundStepOne_single_no_emit rounds cooldownMin freshSec cfg code est proxyPct now today st hr2 h0
  · intro rounds cooldownMin freshSec cfg code l st hr1 h0
    have h := runFund_cnt_lt rounds cooldownMin freshSec cfg code l st hr1 (by omega)
    omega
  · intro rounds cooldownMin freshSec cfg code l st hnq h0 hlt
    exact runFund_no_emit rounds cooldownMin freshSec cfg code l st hnq (by omega)

def cfgEx : FundCfg := { band := (-4, -2), freshMin := 25 }

def estGood : FundEst := { name := "A", gsz := 1, pct := -3, freshMin := 5 }

def fundInEx : FundIn := { est := some estGood, proxyPct := none, now := 0, today := "2025-03-03" }

theorem fund_confirmation_threshold_behavior_witness :
    (2 : ℕ) ≤ 2 ∧ initState.pendingCnt ("fund:" ++ "022364") = 0 ∧
    (fundStepOne 2 60 1500 cfgEx "022364" (some estGood) none 0 "2025-03-03" initState).2 = false ∧
    ((runFund 2 60 1500 cfgEx "022364" [fundInEx] initState).1).pendingCnt ("fund:" ++ "022364") ≤ 2 ∧
    (runFund 2 60 1500 cfgEx "022364" [fundInEx] initState).2 = 0 := by
  refine ⟨le_refl 2, rfl, ?_, ?_, ?_⟩
  · exact fund_confirmation_threshold_behavior.1 2 60 1500 cfgEx "022364" (some estGood) none 0
      "2025-03-03" initState (le_refl 2) rfl
  · exact fund_confirmation_threshold_behavior.2.1 2 60 1500 cfgEx "022364" [fundInEx] initState
      (by omega) rfl
  · refine fund_confirmation_threshold_behavior.2.2 2 60 1500 cfgEx "022364" [fundInEx] initState
      ?_ rfl ?_
    · intro i hi
      rw [List.mem_singleton] at hi
      subst hi
      norm_num [evalNonQual, evalRead, staleRead, fund_qualifies, in_pullback_band, same_direction,
        fundInEx, cfgEx, estGood]
    · norm_num [List.filter, evalQual, evalRead, staleRead, fund_qualifies, in_pullback_band,
        same_direction, fundInEx, cfgEx, estGood]

def estStale : FundEst := { name := "A", gsz := 1, pct := -3, freshMin := 30 }

def stOne : EngineState :=
  { pendingCnt := fun k => if k = "fund:006502" then 1 else 0
    fundCooldown := fun _ => 0
    etfCooldown := fun _ => 0
    fired := fun _ _ => false }

/-- Claim C2 counterexample: an estimate discarded for staleness (age 30
minutes against a 25-minute per-fund limit and a 1500-second ceiling, so the
line-316 test fires) makes the pass return the state untouched with no Hit:
the confirmation counter, 1 before the pass, is still 1 afterwards, where the
claim demands a reset to 0 — the falsifying input for the claim as stated. -/
theorem stale_read_keeps_counter_cex :
    staleRead 1500 cfgEx estStale = true ∧
    fundStepOne 2 60 1500 cfgEx "006502" (some estStale) none 0 "2025-03-03" stOne =
      (stOne, false) ∧
    stOne.pendingCnt "fund:006502" = 1 ∧
    ((fundStepOne 2 60 1500 cfgEx "006502" (some estStale) none 0 "2025-03-03" stOne).1).pendingCnt
      "fund:006502" = 1 ∧
    (1 : ℕ) ≠ 0 := by
  have hs : staleRead 1500 cfgEx estStale = true := by
    norm_num [staleRead, cfgEx, estStale]
  have hstep := fundStepOne_stale 2 60 1500 cfgEx "006502" estStale none 0 "2025-03-03" stOne hs
  refine ⟨hs, hstep, by decide, ?_, by decide⟩
  rw [hstep]
  decide

/-- Claim C2 amended: a fund estimate discarded for staleness (age over the
lesser of the per-instrument fresh limit and the global ceiling) is skipped
for the pass exactly like a fetch failure, not treated as a non-qualifying
read: no Hit is emitted and the whole persisted state, the confirmation
counter included, is returned untouched — the very same outcome the machine
produces when the fetch yields nothing at all. -/
theorem stale_read_skips_state_untouched :
    (∀ (rounds : ℕ) (cooldownMin freshSec : ℚ) (cfg : FundCfg) (code : String) (e : FundEst)
       (proxyPct : Option ℚ) (now : ℚ) (today : String) (st : EngineState),
       staleRead freshSec cfg e = true →
       fundStepOne rounds cooldownMin freshSec cfg code (some e) proxyPct now today st =
         (st, false)) ∧
    (∀ (rounds : ℕ) (cooldownMin freshSec : ℚ) (cfg : FundCfg) (code : String)
       (proxyPct : Option ℚ) (now : ℚ) (today : String) (st : EngineState),
       fundStepOne rounds cooldownMin freshSec cfg code none proxyPct now today st =
         (st, false)) := by
  constructor
  · intro rounds cooldownMin freshSec cfg code e proxyPct now today st hs
    exact fundStepOne_stale rounds cooldownMin freshSec cfg code e proxyPct now today st hs
  · intro rounds cooldownMin freshSec cfg code proxyPct now today st
    exact fundStepOne_none rounds cooldownMin freshSec cfg code proxyPct now today st

theorem stale_read_skips_state_untouched_witness :
    staleRead 1500 cfgEx estStale = true ∧
    fundStepOne 2 60 1500 cfgEx "006502" (some estStale) none 0 "2025-03-03" stOne =
      (stOne, false) ∧
    fundStepOne 2 60 1500 cfgEx "006502" none none 0 "2025-03-03" stOne = (stOne, false) :=
  ⟨by norm_num [staleRead, cfgEx, estStale],
   stale_read_skips_state_untouched.1 2 60 1500 cfgEx "006502" estStale none 0 "2025-03-03" stOne
     (by norm_num [staleRead, cfgEx, estStale]),
   stale_read_skips_state_untouched.2 2 60 1500 cfgEx "006502" none 0 "2025-03-03" stOne⟩

def stC3 : EngineState :=
  { pendingCnt := fun k => if k = "fund:022364" then 1 else 0
    fundCooldown := fun _ => 0
    etfCooldown := fun _ => 0
    fired := fun d t => decide (d = "2025-03-03") && decide (t = "FUND:022364:confirm") }

/-- Claim C3 counterexample: with threshold 2, counter 1, a qualifying fresh
read at clock 1000 and today's tag already fired, the source suppresses the
Hit and resets the counter but leaves cooldownUntil at 0 instead of advancing
it to 1000 + 60 * 60 as the claim states. -/
theorem suppressed_hit_cooldown_unchanged_cex :
    ((fundStepOne 2 60 1500 cfgEx "022364" (some estGood) none 1000 "2025-03-03" stC3).1).fundCooldown
      ("fund:" ++ "022364") = 0 ∧
    (fundStepOne 2 60 1500 cfgEx "022364" (some estGood) none 1000 "2025-03-03" stC3).2 = false ∧
    ((fundStepOne 2 60 1500 cfgEx "022364" (some estGood) none 1000 "2025-03-03" stC3).1).pendingCnt
      ("fund:" ++ "022364") = 0 ∧
    (0 : ℚ) ≠ 1000 + 60 * 60 := by
  have hs : staleRead 1500 cfgEx estGood = false := by
    norm_num [staleRead, cfgEx, estGood]
  have hcd : ¬ (1000 : ℚ) < stC3.fundCooldown ("fund:" ++ "022364") := by
    norm_num [stC3]
  have hq : fund_qualifies cfgEx estGood none = true := by
    norm_num [fund_qualifies, in_pullback_band, same_direction, cfgEx, estGood]
  have hcnt : (2 : ℕ) ≤ stC3.pendingCnt ("fund:" ++ "022364") + 1 := by decide
  have hfired : stC3.fired "2025-03-03" ("FUND:" ++ "022364" ++ ":confirm") = true := by decide
  have hstep := fundStepOne_suppress 2 60 1500 cfgEx "022364" estGood none 1000 "2025-03-03" stC3
    hs hcd hq hcnt hfired
  rw [hstep]
  refine ⟨rfl, rfl, ?_, by norm_num⟩
  simp [upd]

/-- Claim C3 amended: when the confirmation counter reaches the threshold but
today's tag is already in the fired set, the Hit is suppressed and
confirmCount is reset to 0, but cooldownUntil is left unchanged rather than
advanced — the source arms the cooldown only when a Hit is actually emitted;
the ETF machine's already-fired branch likewise leaves all state unchanged. -/
theorem suppressed_hit_resets_counter_no_cooldown :
    (∀ (rounds : ℕ) (cooldownMin freshSec : ℚ) (cfg : FundCfg) (code : String) (e : FundEst)
       (proxyPct : Option ℚ) (now : ℚ) (today : String) (st : EngineState),
       staleRead freshSec cfg e = false →
       ¬ now < st.fundCooldown ("fund:" ++ code) →
       fund_qualifies cfg e proxyPct = true →
       rounds ≤ st.pendingCnt ("fund:" ++ code) + 1 →
       st.fired today ("FUND:" ++ code ++ ":confirm") = true →
       fundStepOne rounds cooldownMin freshSec cfg code (some e) proxyPct now today st =
         ({ st with pendingCnt := upd ("fund:" ++ code) 0 st.pendingCnt }, false)) ∧
    (∀ (drawMin drawMax volMult etfCooldownMin slice totalAssets refEnv : ℚ) (code : String)
       (qq : Quote) (hr mi : ℤ) (now : ℚ) (today : String) (st : EngineState),
       ¬ (qq.price ≤ 0 ∨ qq.preclose ≤ 0) →
       ¬ now < st.etfCooldown ("etf:" ++ code) →
       (etf_in_zone drawMin drawMax refEnv qq || vol_breakout volMult qq.volume_hand hr mi) = true →
       st.fired today ("ETF:" ++ code ++ ":wave") = true →
       etfStepOne drawMin drawMax volMult etfCooldownMin slice totalAssets refEnv code (some qq) hr mi now today st =
         (st, none)) := by
  constructor
  · intro rounds cooldownMin freshSec cfg code e proxyPct now today st hs hcd hq hcnt hfired
    exact fundStepOne_suppress rounds cooldownMin freshSec cfg code e proxyPct now today st hs hcd hq hcnt hfired
  · intro drawMin drawMax volMult etfCooldownMin slice totalAssets refEnv code qq hr mi now today st hg hcd hz hfired
    exact etfStepOne_suppress drawMin drawMax volMult etfCooldownMin slice totalAssets refEnv code qq hr mi now today st hg hcd hz hfired

theorem suppressed_hit_resets_counter_no_cooldown_witness :
    staleRead 1500 cfgEx estGood = false ∧
    fund_qualifies cfgEx estGood none = true ∧
    stC3.fired "2025-03-03" ("FUND:" ++ "022364" ++ ":confirm") = true ∧
    fundStepOne 2 60 1500 cfgEx "022364" (some estGood) none 1000 "2025-03-03" stC3 =
      ({ stC3 with pendingCnt := upd ("fund:" ++ "022364") 0 stC3.pendingCnt }, false) := by
  refine ⟨by norm_num [staleRead, cfgEx, estGood],
    by norm_num [fund_qualifies, in_pullback_band, same_direction, cfgEx, estGood],
    by decide, ?_⟩
  exact suppressed_hit_resets_counter_no_cooldown.1 2 60 1500 cfgEx "022364" estGood none 1000
    "2025-03-03" stC3
    (by norm_num [staleRead, cfgEx, estGood])
    (by norm_num [stC3])
    (by norm_num [fund_qualifies, in_pullback_band, same_direction, cfgEx, estGood])
    (by decide)
    (by decide)

theorem fundStepOne_fundCooldown_mono (rounds : ℕ) (cooldownMin freshSec : ℚ) (cfg : FundCfg)
    (code : String) (est : Option FundEst) (proxyPct : Option ℚ) (now : ℚ) (today : String)
    (st : EngineState) (h0 : 0 ≤ cooldownMin) (k : String) :
    st.fundCooldown k ≤
      ((fundStepOne rounds cooldownMin freshSec cfg code est proxyPct now today st).1).fundCooldown k := by
  unfold fundStepOne
  cases est with
  | none => exact le_refl _
  | some e =>
    dsimp only
    split
    · exact le_refl _
    · split
      · exact le_refl _
      · split
        · split
          · split
            · exact le_refl _
            · rename_i hcd hq hcnt hfired
              show st.fundCooldown k ≤ upd ("fund:" ++ code) (now + cooldownMin * 60) st.fundCooldown k
              unfold upd
              split
              · rename_i hk
                rw [hk]
                have h1 : st.fundCooldown ("fund:" ++ code) ≤ now := not_lt.mp hcd
                have h2 : (0 : ℚ) ≤ cooldownMin * 60 := mul_nonneg h0 (by norm_num)
                linarith
              · exact le_refl _
          · exact le_refl _
        · exact le_refl _

theorem fundStepOne_etfCooldown_eq (rounds : ℕ) (cooldownMin freshSec : ℚ) (cfg : FundCfg)
    (code : String) (est : Option FundEst) (proxyPct : Option ℚ) (now : ℚ) (today : String)
    (st : EngineState) :
    ((fundStepOne rounds cooldownMin freshSec cfg code est proxyPct now today st).1).etfCooldown =
      st.etfCooldown := by
  unfold fundStepOne
  cases est with
  | none => rfl
  | some e =>
    dsimp only
    split
    · rfl
    · split
      · rfl
      · split
        · split
          · split
            · rfl
            · rfl
          · rfl
        · rfl

theorem etfStepOne_etfCooldown_mono (drawMin drawMax volMult etfCooldownMin slice totalAssets refEnv : ℚ)
    (code : String) (q : Option Quote) (hr mi : ℤ) (now : ℚ) (today : String)
    (st : EngineState) (h0 : 0 ≤ etfCooldownMin) (k : String) :
    st.etfCooldown k ≤
      ((etfStepOne drawMin drawMax volMult etfCooldownMin slice totalAssets refEnv code q hr mi now today st).1).etfCooldown k := by
  unfold etfStepOne
  cases q with
  | none => exact le_refl _
  | some qq =>
    dsimp only
    split
    · exact le_refl _
    · split
      · exact le_refl _
      · split
        · split
          · exact le_refl _
          · rename_i hguard hcd hz hfired
            show st.etfCooldown k ≤ upd ("etf:" ++ code) (now + etfCooldownMin * 60) st.etfCooldown k
            unfold upd
            split
            · rename_i hk
              rw [hk]
              have h1 : st.etfCooldown ("etf:" ++ code) ≤ now := not_lt.mp hcd
              have h2 : (0 : ℚ) ≤ etfCooldownMin * 60 := mul_nonneg h0 (by norm_num)
              linarith
            · exact le_refl _
        · exact le_refl _

theorem etfStepOne_fundCooldown_eq (drawMin drawMax volMult etfCooldownMin slice totalAssets refEnv : ℚ)
    (code : String) (q : Option Quote) (hr mi : ℤ) (now : ℚ) (today : String)
    (st : EngineState) :
    ((etfStepOne drawMin drawMax volMult etfCooldownMin slice totalAssets refEnv code q hr mi now today st).1).fundCooldown =
      st.fundCooldown := by
  unfold etfStepOne
  cases q with
  | none => rfl
  | some qq =>
    dsimp only
    split
    · rfl
    · split
      · rfl
      · split
        · split
          · rfl
          · rfl
        · rfl

theorem runEvent_cooldown_mono (g : GCfg) (h1 : 0 ≤ g.fundCooldownMin)
    (h2 : 0 ≤ g.etfCooldownMin) (ev : Ev) (st : EngineState) (k : String) :
    st.fundCooldown k ≤ ((runEvent g ev st).1).fundCooldown k ∧
    st.etfCooldown k ≤ ((runEvent g ev st).1).etfCooldown k := by
  cases ev with
  | fund cfg code est proxyPct now today =>
    dsimp only [runEvent]
    constructor
    · exact fundStepOne_fundCooldown_mono g.rounds g.fundCooldownMin g.freshSec cfg code est
        proxyPct now today st h1 k
    · rw [fundStepOne_etfCooldown_eq]
  | etf refEnv code q hr mi now today =>
    dsimp only [runEvent]
    constructor
    · rw [etfStepOne_fundCooldown_eq]
    · exact etfStepOne_etfCooldown_mono g.drawMin g.drawMax g.volMult g.etfCooldownMin g.slice
        g.totalAssets refEnv code q hr mi now today st h2 k

/-- Claim C6: for every instrument key, cooldownUntil is monotonically
non-decreasing across any sequence of passes: both machines write it only
after the previous value was checked as expired (now at or past it), and the
value written, now plus a positive cooldown duration times 60 seconds, is
never below the previous value. -/
theorem cooldown_monotone (g : GCfg) (h1 : 0 < g.fundCooldownMin) (h2 : 0 < g.etfCooldownMin)
    (l : List Ev) (st : EngineState) (k : String) :
    st.fundCooldown k ≤ ((runTrace g l st).1).fundCooldown k ∧
    st.etfCooldown k ≤ ((runTrace g l st).1).etfCooldown k := by
  induction l generalizing st with
  | nil => exact ⟨le_refl _, le_refl _⟩
  | cons ev rest ih =>
    dsimp only [runTrace]
    have hstep := runEvent_cooldown_mono g (le_of_lt h1) (le_of_lt h2) ev st k
    have hrest := ih (runEvent g ev st).1
    exact ⟨le_trans hstep.1 hrest.1, le_trans hstep.2 hrest.2⟩

def gEx : GCfg :=
  { rounds := 2, fundCooldownMin := 60, freshSec := 1500, drawMin := -8, drawMax := -5,
    volMult := 9 / 5, etfCooldownMin := 30, slice := 7 / 200, totalAssets := 100000 }

def evEx : Ev := Ev.fund cfgEx "022364" (some estGood) none 0 "2025-03-03"

theorem cooldown_monotone_witness :
    (0 : ℚ) < gEx.fundCooldownMin ∧ (0 : ℚ) < gEx.etfCooldownMin ∧
    (initState.fundCooldown "fund:022364" ≤
      ((runTrace gEx [evEx] initState).1).fundCooldown "fund:022364" ∧
     initState.etfCooldown "fund:022364" ≤
      ((runTrace gEx [evEx] initState).1).etfCooldown "fund:022364") :=
  ⟨by norm_num [gEx], by norm_num [gEx],
   cooldown_monotone gEx (by norm_num [gEx]) (by norm_num [gEx]) [evEx] initState "fund:022364"⟩

/-- Claim C7: an evaluated fund read emits exactly when the band test AND the
proxy-direction test both pass (together with the confirmation threshold and
the daily dedup; a volume breakout plays no part in the fund machine, whose
inputs carry no volume at all), a non-qualifying fund read resets the counter
and never emits, while an evaluated ETF read emits exactly when the
retracement zone OR the approximate volume breakout holds (with the daily
dedup), the two paths disjoined. -/
theorem qualification_fund_and_etf :
    (∀ (rounds : ℕ) (cooldownMin freshSec : ℚ) (cfg : FundCfg) (code : String) (e : FundEst)
       (proxyPct : Option ℚ) (now : ℚ) (today : String) (st : EngineState),
       staleRead freshSec cfg e = false →
       ¬ now < st.fundCooldown ("fund:" ++ code) →
       ((fundStepOne rounds cooldownMin freshSec cfg code (some e) proxyPct now today st).2 = true ↔
         (in_pullback_band e.pct cfg.band && same_direction e.pct proxyPct) = true ∧
         rounds ≤ st.pendingCnt ("fund:" ++ code) + 1 ∧
         st.fired today ("FUND:" ++ code ++ ":confirm") = false)) ∧
    (∀ (rounds : ℕ) (cooldownMin freshSec : ℚ) (cfg : FundCfg) (code : String) (e : FundEst)
       (proxyPct : Option ℚ) (now : ℚ) (today : String) (st : EngineState),
       staleRead freshSec cfg e = false →
       ¬ now < st.fundCooldown ("fund:" ++ code) →
       fund_qualifies cfg e proxyPct = false →
       fundStepOne rounds cooldownMin freshSec cfg code (some e) proxyPct now today st =
         ({ st with pendingCnt := upd ("fund:" ++ code) 0 st.pendingCnt }, false)) ∧
    (∀ (drawMin drawMax volMult etfCooldownMin slice totalAssets refEnv : ℚ) (code : String)
       (qq : Quote) (hr mi : ℤ) (now : ℚ) (today : String) (st : EngineState),
       ¬ (qq.price ≤ 0 ∨ qq.preclose ≤ 0) →
       ¬ now < st.etfCooldown ("etf:" ++ code) →
       (((etfStepOne drawMin drawMax volMult etfCooldownMin slice totalAssets refEnv code
           (some qq) hr mi now today st).2).isSome = true ↔
         (etf_in_zone drawMin drawMax refEnv qq || vol_breakout volMult qq.volume_hand hr mi) = true ∧
         st.fired today ("ETF:" ++ code ++ ":wave") = false)) := by
  refine ⟨?_, ?_, ?_⟩
  · intro rounds cooldownMin freshSec cfg code e proxyPct now today st hs hcd
    constructor
    · intro h
      by_cases hq : fund_qualifies cfg e proxyPct = true
      · by_cases hcnt : rounds ≤ st.pendingCnt ("fund:" ++ code) + 1
        · by_cases hfired : st.fired today ("FUND:" ++ code ++ ":confirm") = true
          · rw [fundStepOne_suppress rounds cooldownMin freshSec cfg code e proxyPct now today st
              hs hcd hq hcnt hfired] at h
            simp at h
          · exact ⟨hq, hcnt, by simpa using hfired⟩
        · rw [fundStepOne_inc rounds cooldownMin freshSec cfg code e proxyPct now today st
            hs hcd hq hcnt] at h
          simp at h
      · rw [fundStepOne_nonqual rounds cooldownMin freshSec cfg code e proxyPct now today st
          hs hcd (by simpa using hq)] at h
        simp at h
    · rintro ⟨hq, hcnt, hfired⟩
      rw [fundStepOne_fire rounds cooldownMin freshSec cfg code e proxyPct now today st
        hs hcd hq hcnt hfired]
  · intro rounds cooldownMin freshSec cfg code e proxyPct now today st hs hcd hq
    exact fundStepOne_nonqual rounds cooldownMin freshSec cfg code e proxyPct now today st hs hcd hq
  · intro drawMin drawMax volMult etfCooldownMin slice totalAssets refEnv code qq hr mi now today st hg hcd
    constructor
    · intro h
      by_cases hz : (etf_in_zone drawMin drawMax refEnv qq ||
          vol_breakout volMult qq.volume_hand hr mi) = true
      · by_cases hfired : st.fired today ("ETF:" ++ code ++ ":wave") = true
        · rw [etfStepOne_suppress drawMin drawMax volMult etfCooldownMin slice totalAssets refEnv
            code qq hr mi now today st hg hcd hz hfired] at h
          simp at h
        · exact ⟨hz, by simpa using hfired⟩
      · rw [etfStepOne_nohit drawMin drawMax volMult etfCooldownMin slice totalAssets refEnv
          code qq hr mi now today st hg hcd (by simpa using hz)] at h
        simp at h
    · rintro ⟨hz, hfired⟩
      rw [etfStepOne_fire drawMin drawMax volMult etfCooldownMin slice totalAssets refEnv
        code qq hr mi now today st hg hcd hz hfired]
      rfl

def quoteEx : Quote :=
  { name := "B", preclose := 7 / 10, price := 69 / 100, high := 7 / 10, low := 68 / 100,
    volume_hand := 1000, pct := 0 }

theorem qualification_fund_and_etf_witness :
    staleRead 1500 cfgEx estGood = false ∧
    ¬ (0 : ℚ) < initState.fundCooldown ("fund:" ++ "022364") ∧
    ((fundStepOne 2 60 1500 cfgEx "022364" (some estGood) none 0 "2025-03-03" initState).2 = true ↔
      (in_pullback_band estGood.pct cfgEx.band && same_direction estGood.pct none) = true ∧
      2 ≤ initState.pendingCnt ("fund:" ++ "022364") + 1 ∧
      initState.fired "2025-03-03" ("FUND:" ++ "022364" ++ ":confirm") = false) ∧
    ¬ ((quoteEx.price ≤ 0 ∨ quoteEx.preclose ≤ 0)) ∧
    (((etfStepOne (-8) (-5) (9 / 5) 30 (7 / 200) 100000 (727 / 1000) "512810" (some quoteEx)
        10 30 0 "2025-03-03" initState).2).isSome = true ↔
      (etf_in_zone (-8) (-5) (727 / 1000) quoteEx ||
        vol_breakout (9 / 5) quoteEx.volume_hand 10 30) = true ∧
      initState.fired "2025-03-03" ("ETF:" ++ "512810" ++ ":wave") = false) := by
  refine ⟨by norm_num [staleRead, cfgEx, estGood], by norm_num [initState], ?_, ?_, ?_⟩
  · exact qualification_fund_and_etf.1 2 60 1500 cfgEx "022364" estGood none 0 "2025-03-03"
      initState (by norm_num [staleRead, cfgEx, estGood]) (by norm_num [initState])
  · norm_num [quoteEx]
  · exact qualification_fund_and_etf.2.2 (-8) (-5) (9 / 5) 30 (7 / 200) 100000 (727 / 1000)
      "512810" quoteEx 10 30 0 "2025-03-03" initState (by norm_num [quoteEx])
      (by norm_num [initState])

/-- Claim C8: a fund snapshot whose name misses the configured substring is
discarded by the fetch guard before any indicator is computed, and a fund
whose fetch produced nothing is skipped for the pass with the persisted
state returned untouched: no Hit, and confirmCount, cooldownUntil and the
fired set exactly as before. -/
theorem fetch_failure_or_name_mismatch_skips :
    (∀ (s name : String) (gsz pct : Option ℚ) (freshMin : ℚ),
       strContains name s = false →
       fetch_fund_estimate_core (some s) name gsz pct freshMin = none) ∧
    (∀ (rounds : ℕ) (cooldownMin freshSec : ℚ) (cfg : FundCfg) (code : String)
       (proxyPct : Option ℚ) (now : ℚ) (today : String) (st : EngineState),
       fundStepOne rounds cooldownMin freshSec cfg code none proxyPct now today st = (st, false)) := by
  constructor
  · intro s name gsz pct freshMin h
    unfold fetch_fund_estimate_core
    rw [if_pos]
    simp [h]
  · intro rounds cooldownMin freshSec cfg code proxyPct now today st
    exact fundStepOne_none rounds cooldownMin freshSec cfg code proxyPct now today st

theorem fetch_failure_or_name_mismatch_skips_witness :
    strContains "Some Other Fund" "永赢科技" = false ∧
    fetch_fund_estimate_core (some "永赢科技") "Some Other Fund" (some 1) (some (-3)) 5 = none ∧
    fundStepOne 2 60 1500 cfgEx "022364" none none 0 "2025-03-03" stOne = (stOne, false) :=
  ⟨by decide,
   fetch_failure_or_name_mismatch_skips.1 "永赢科技" "Some Other Fund" (some 1) (some (-3)) 5
     (by decide),
   fetch_failure_or_name_mismatch_skips.2 2 60 1500 cfgEx "022364" none 0 "2025-03-03" stOne⟩

/-- Claim C9: every fund Hit in a batch is assigned totalAssets times the
hardcoded 10 percent attack fraction split equally over the batch size (5000
each for two Hits on 100000 of assets), while every emitted ETF Hit is
independently assigned totalAssets times the attack fraction times the slice
fraction, with no dependence on how many ETF Hits the pass produced. -/
theorem allocation_sizing :
    fund_per_buy 100000 2 = 5000 ∧
    (∀ (totalAssets : ℚ) (n : ℕ), 1 ≤ n →
       fund_per_buy totalAssets n = totalAssets * attackFraction / (n : ℚ)) ∧
    (∀ (totalAssets slice : ℚ), etf_buy_amt totalAssets slice = totalAssets * attackFraction * slice) ∧
    (∀ (drawMin drawMax volMult etfCooldownMin slice totalAssets refEnv : ℚ) (code : String)
       (q : Option Quote) (hr mi : ℤ) (now : ℚ) (today : String) (st : EngineState) (a : ℚ),
       (etfStepOne drawMin drawMax volMult etfCooldownMin slice totalAssets refEnv code q hr mi now today st).2 = some a →
       a = totalAssets * attackFraction * slice) := by
  refine ⟨?_, ?_, ?_, ?_⟩
  · show (100000 : ℚ) * (10 / 100) / max 1 ((2 : ℕ) : ℚ) = 5000
    rw [show (((2 : ℕ) : ℚ)) = 2 by norm_num, max_eq_right (by norm_num : (1 : ℚ) ≤ 2)]
    norm_num
  · intro totalAssets n hn
    show totalAssets * (10 / 100) / max 1 ((n : ℕ) : ℚ) = totalAssets * attackFraction / (n : ℚ)
    rw [max_eq_right (by exact_mod_cast hn : (1 : ℚ) ≤ (n : ℚ))]
    rfl
  · intro totalAssets slice
    rfl
  · intro drawMin drawMax volMult etfCooldownMin slice totalAssets refEnv code q hr mi now today st a h
    unfold etfStepOne at h
    cases q with
    | none => simp at h
    | some qq =>
      dsimp only at h
      split at h
      · simp at h
      · split at h
        · simp at h
        · split at h
          · split at h
            · simp at h
            · rw [Option.some.injEq] at h
              rw [← h]
              rfl
          · simp at h

theorem allocation_sizing_witness :
    (1 : ℕ) ≤ 2 ∧
    fund_per_buy 100000 2 = 100000 * attackFraction / ((2 : ℕ) : ℚ) ∧
    etf_buy_amt 100000 (7 / 200) = 100000 * attackFraction * (7 / 200) :=
  ⟨by norm_num,
   allocation_sizing.2.1 100000 2 (by norm_num),
   allocation_sizing.2.2.1 100000 (7 / 200)⟩

theorem vol_breakout_false (volMult v : ℚ) (hr mi : ℤ) (h1 : 1 < volMult) :
    vol_breakout volMult v hr mi = false := by
  unfold vol_breakout
  have hm : (0 : ℤ) < elapsed_mins hr mi :=
    lt_of_lt_of_le one_pos (le_max_left 1 (minutes_since_open hr mi))
  have hmq : (0 : ℚ) < ((elapsed_mins hr mi : ℤ) : ℚ) := by exact_mod_cast hm
  by_cases hv : 0 < avg_per_min v hr mi
  · have havg : avg_per_min v hr mi = v / ((elapsed_mins hr mi : ℤ) : ℚ) := by
      unfold avg_per_min
      rw [if_pos hm]
    have hv0 : 0 < v := by
      rw [havg] at hv
      have := mul_pos hv hmq
      rwa [div_mul_cancel₀ _ (ne_of_gt hmq)] at this
    have hr1 : v / (avg_per_min v hr mi * ((elapsed_mins hr mi : ℤ) : ℚ)) = 1 := by
      rw [havg, div_mul_cancel₀ _ (ne_of_gt hmq), div_self (ne_of_gt hv0)]
    rw [hr1, decide_eq_false (not_lt.mpr (le_of_lt h1)), Bool.and_false]
  · rw [decide_eq_false hv, Bool.false_and]

/-- Claim C10: whenever the configured volume multiplier is over 1, the
code's volume-breakout predicate is identically false, because it divides
cumulative volume by the very per-minute average times the elapsed minutes it
was computed from, a quotient that is 1 for positive volume; consequently
every emitted ETF Hit arises from the retracement zone alone. -/
theorem vol_ok_always_false_multiplier_gt_one :
    (∀ (volMult v : ℚ) (hr mi : ℤ), 1 < volMult → vol_breakout volMult v hr mi = false) ∧
    (∀ (drawMin drawMax volMult etfCooldownMin slice totalAssets refEnv : ℚ) (code : String)
       (qq : Quote) (hr mi : ℤ) (now : ℚ) (today : String) (st : EngineState) (a : ℚ),
       1 < volMult →
       (etfStepOne drawMin drawMax volMult etfCooldownMin slice totalAssets refEnv code
         (some qq) hr mi now today st).2 = some a →
       etf_in_zone drawMin drawMax refEnv qq = true) := by
  constructor
  · intro volMult v hr mi h1
    exact vol_breakout_false volMult v hr mi h1
  · intro drawMin drawMax volMult etfCooldownMin slice totalAssets refEnv code qq hr mi now today st a h1 h
    unfold etfStepOne at h
    dsimp only at h
    split at h
    · simp at h
    · split at h
      · simp at h
      · split at h
        · rename_i hz
          rw [vol_breakout_false volMult qq.volume_hand hr mi h1, Bool.or_false] at hz
          exact hz
        · simp at h

theorem vol_ok_always_false_multiplier_gt_one_witness :
    (1 : ℚ) < 9 / 5 ∧ vol_breakout (9 / 5) 12345 10 0 = false :=
  ⟨by norm_num,
   vol_ok_always_false_multiplier_gt_one.1 (9 / 5) 12345 10 0 (by norm_num)⟩

/-- Claim C4: the source never computes the spec's expected-volume ratio: at
the spec's own scenario (average daily volume 1000000, 60 of 240 minutes
elapsed, cumulative volume 500000) the intended ratio is 2, over the default
1.8 multiplier, yet the code's vol_ok predicate, fed the cumulative volume
500000 at 10:30 (60 elapsed minutes), is false — the breakout does not
qualify because the code divides the volume by itself. -/
theorem vol_breakout_spec_example_divergence :
    spec_volume_ratio 1000000 500000 60 240 = 2 ∧ (9 : ℚ) / 5 < 2 ∧
    vol_breakout (9 / 5) 500000 10 30 = false := by
  refine ⟨by norm_num [spec_volume_ratio], by norm_num, ?_⟩
  norm_num [vol_breakout, avg_per_min, elapsed_mins, minutes_since_open]

end MarketWatch
